import Mathlib

/-!
Shallow embedding of the `fingertail` behavioral-biometrics core:
feature extraction and risk aggregation from `ml_backend.py`
(class `BehavioralBiometricsML`) and the heuristic risk indicators and
data validation from `api_server.py`.

Modelling conventions:
- Python numbers are modelled as rationals (`ℚ`). The floating-point
  square root used by `np.std` and by the Euclidean-distance
  computations is modelled by `Rat.sqrt`, which agrees with the real
  square root on perfect squares; every concrete value this development
  evaluates has a perfect-square radicand. `np.nan_to_num` is the
  identity on rationals (no NaN or infinity exists in `ℚ`), so it is
  not reified.
- Python `dict` payloads are modelled by structures with `Option`
  fields for every key the code may find absent; a `KeyError` raised by
  a subscript on an absent key is modelled by `Except String`, and the
  `try/except` wrapper of `extract_features` by a `match` on that
  `Except` value. `isinstance` checks of `validate_data` are vacuously
  true in this typed embedding and therefore produce no errors.
- The diagnostic `logger.error` emission on the fallback path is
  modelled by the error string carried in the `Except` value.
-/

set_option autoImplicit false

namespace Fingertail

/-- Rational mean of a list, `sum(xs)/len(xs)`; division by zero in `ℚ`
yields `0`, matching the fact that every call site guards non-emptiness. -/
def meanQ (xs : List ℚ) : ℚ := xs.sum / (xs.length : ℚ)

/-- Population variance, as computed by `np.var`, `np.std` (squared) and
the inline variance loops of `api_server.py`. -/
def pvar (xs : List ℚ) : ℚ :=
  (xs.map (fun x => (x - meanQ xs) ^ 2)).sum / (xs.length : ℚ)

/-- Population standard deviation `np.std`; the float square root is
modelled by `Rat.sqrt` (exact on perfect squares). -/
def pstd (xs : List ℚ) : ℚ := Rat.sqrt (pvar xs)

/-- Minimum of a list, `np.min`; call sites guard non-emptiness. -/
def minQ : List ℚ → ℚ
  | [] => 0
  | x :: xs => xs.foldl min x

/-- Maximum of a list, `np.max`; call sites guard non-emptiness. -/
def maxQ : List ℚ → ℚ
  | [] => 0
  | x :: xs => xs.foldl max x

/-- Insertion into a sorted list, used to model the sorting step of
`np.percentile`. -/
def insertSorted (x : ℚ) : List ℚ → List ℚ
  | [] => [x]
  | y :: ys => if x ≤ y then x :: y :: ys else y :: insertSorted x ys

/-- Insertion sort of a rational list. -/
def sortQ (xs : List ℚ) : List ℚ := xs.foldr insertSorted []

/-- Linear-interpolation percentile, as computed by `np.percentile`
with its default method: for sorted data of length `n`, the value at
fractional index `p/100 * (n-1)`. -/
def percentileQ (xs : List ℚ) (p : ℚ) : ℚ :=
  let s := sortQ xs
  if s.length = 0 then 0
  else
    let idx : ℚ := p / 100 * ((s.length : ℚ) - 1)
    let i : ℕ := (Int.floor idx).toNat
    let lo := s.getD i 0
    let hi := s.getD (i + 1) lo
    lo + (hi - lo) * (idx - (i : ℚ))

/-- First differences of a list, `np.diff`. -/
def diffs (xs : List ℚ) : List ℚ := (xs.zip xs.tail).map fun p => p.2 - p.1

/-- A key event `{key, event, epoch, inputBox}` of the payload. -/
structure KeyEvent where
  key : String
  event : String
  epoch : ℚ
  inputBox : String
deriving DecidableEq

/-- A coordinate pair `{x, y}`. -/
structure Coords where
  x : ℚ
  y : ℚ
deriving DecidableEq

/-- A touch event `{event, coordinates, epoch}` of the payload. -/
structure TouchEvent where
  event : String
  coordinates : Coords
  epoch : ℚ
deriving DecidableEq

/-- A three-axis sensor reading `{x, y, z}`. -/
structure Vec3 where
  x : ℚ
  y : ℚ
  z : ℚ
deriving DecidableEq

/-- A sensor sample; `accelerometer`, `gyroscope` and `magnetometer`
are each optional keys of the per-sample dict (the code subscripts
`accelerometer` unconditionally, raising `KeyError` when absent). -/
structure SensorSample where
  accelerometer : Option Vec3
  gyroscope : Option Vec3
  magnetometer : Option Vec3
  timestamp : ℚ
deriving DecidableEq

/-- The behavioral payload dict; every key the code tests with `in` or
reads with `.get` is optional. -/
structure BehavioralData where
  keyEvents : Option (List KeyEvent)
  touchEvents : Option (List TouchEvent)
  sensorData : Option (List SensorSample)
  sessionDuration : Option ℚ
  typingSpeed : Option ℚ
  falseEnters : Option ℚ
deriving DecidableEq

/-- Dwell times: for every adjacent index pair of the key-event list
where event `i` is `pressed` and event `i+1` is `released`, the epoch
difference (lines 192-196 of `ml_backend.py`). -/
def dwellTimes (ks : List KeyEvent) : List ℚ :=
  (ks.zip ks.tail).filterMap fun p =>
    if p.1.event = "pressed" ∧ p.2.event = "released" then
      some (p.2.epoch - p.1.epoch)
    else none

/-- Flight times: adjacent `released` → `pressed` epoch differences
(lines 211-215 of `ml_backend.py`). -/
def flightTimes (ks : List KeyEvent) : List ℚ :=
  (ks.zip ks.tail).filterMap fun p =>
    if p.1.event = "released" ∧ p.2.event = "pressed" then
      some (p.2.epoch - p.1.epoch)
    else none

/-- Epochs of all `pressed` key events (line 228 of `ml_backend.py`). -/
def pressTimes (ks : List KeyEvent) : List ℚ :=
  ks.filterMap fun e => if e.event = "pressed" then some e.epoch else none

/-- The six dwell-time statistics emitted when the dwell list is
non-empty. -/
def dwellStats (ds : List ℚ) : List ℚ :=
  [meanQ ds, pstd ds, minQ ds, maxQ ds, percentileQ ds 25, percentileQ ds 75]

/-- The four-value statistic block (mean, std, min, max) shared by the
flight, rhythm, touch and sensor feature groups. -/
def fourStats (xs : List ℚ) : List ℚ := [meanQ xs, pstd xs, minQ xs, maxQ xs]

/-- Key-timing feature block of `extract_features` (lines 188-242):
with more than one key event, 6 dwell + 4 flight + 4 rhythm statistics,
each sub-block zero-filled when its list of samples is empty; otherwise
18 zeros. -/
def keyBlock (ks : List KeyEvent) : List ℚ :=
  if ks.length > 1 then
    (if dwellTimes ks ≠ [] then dwellStats (dwellTimes ks)
     else List.replicate 6 0) ++
    (if flightTimes ks ≠ [] then fourStats (flightTimes ks)
     else List.replicate 4 0) ++
    (if (pressTimes ks).length > 1 then fourStats (diffs (pressTimes ks))
     else List.replicate 4 0)
  else List.replicate 18 0

/-- Touch movement distances: for adjacent `touch` → `release` pairs,
the Euclidean distance between the coordinates (lines 249-255 of
`ml_backend.py`; the scan of `api_server.py` lines 263-269 visits the
same pairs and computes the same distances). -/
def touchMovements (ts : List TouchEvent) : List ℚ :=
  (ts.zip ts.tail).filterMap fun p =>
    if p.1.event = "touch" ∧ p.2.event = "release" then
      some (Rat.sqrt ((p.2.coordinates.x - p.1.coordinates.x) ^ 2 +
                      (p.2.coordinates.y - p.1.coordinates.y) ^ 2))
    else none

/-- Touch feature block of `extract_features` (lines 244-269): four
movement statistics, zero-filled when no qualifying pair or fewer than
2 touch events. -/
def touchBlock (ts : List TouchEvent) : List ℚ :=
  if ts.length > 1 then
    if touchMovements ts ≠ [] then fourStats (touchMovements ts)
    else List.replicate 4 0
  else List.replicate 4 0

/-- Subscripting an optional per-sample sensor field, `s[name]`: raises
`KeyError` when the key is absent. -/
def req (name : String) : Option Vec3 → Except String Vec3
  | some v => .ok v
  | none => .error ("KeyError: " ++ name)

/-- The list comprehension `[s[name][axis] for s in sensor_data]`
evaluated left to right, failing at the first sample missing the key.
Values are kept as whole `Vec3` readings; the per-axis projections are
taken by `stats12`. -/
def getAll (name : String) (f : SensorSample → Option Vec3) :
    List SensorSample → Except String (List Vec3)
  | [] => .ok []
  | s :: ss =>
    match req name (f s) with
    | .error e => .error e
    | .ok v =>
      match getAll name f ss with
      | .error e => .error e
      | .ok vs => .ok (v :: vs)

/-- Twelve statistics of one sensor: mean/std/min/max of each of the
x, y and z axis value lists (lines 280-284 and analogous). -/
def stats12 (vs : List Vec3) : List ℚ :=
  [meanQ (vs.map Vec3.x), pstd (vs.map Vec3.x),
   minQ (vs.map Vec3.x), maxQ (vs.map Vec3.x),
   meanQ (vs.map Vec3.y), pstd (vs.map Vec3.y),
   minQ (vs.map Vec3.y), maxQ (vs.map Vec3.y),
   meanQ (vs.map Vec3.z), pstd (vs.map Vec3.z),
   minQ (vs.map Vec3.z), maxQ (vs.map Vec3.z)]

/-- Sensor feature block of `extract_features` (lines 271-316): with
more than one sample, 12 accelerometer statistics (subscripted
unconditionally, so a `KeyError` propagates), then 12 gyroscope
statistics when the first sample carries a `gyroscope` key (else 12
zeros), then 12 magnetometer statistics under the same first-sample
rule; with at most one sample, 36 zeros. -/
def sensorBlock : List SensorSample → Except String (List ℚ)
  | s0 :: s1 :: rest =>
    match getAll "accelerometer" SensorSample.accelerometer (s0 :: s1 :: rest) with
    | .error e => .error e
    | .ok accs =>
      match (if s0.gyroscope.isSome then
               (getAll "gyroscope" SensorSample.gyroscope (s0 :: s1 :: rest)).map stats12
             else .ok (List.replicate 12 0)) with
      | .error e => .error e
      | .ok gyr =>
        match (if s0.magnetometer.isSome then
                 (getAll "magnetometer" SensorSample.magnetometer (s0 :: s1 :: rest)).map stats12
               else .ok (List.replicate 12 0)) with
        | .error e => .error e
        | .ok mag => .ok (stats12 accs ++ gyr ++ mag)
  | _ => .ok (List.replicate 36 0)

/-- Key-block dispatch on presence of the `keyEvents` key
(lines 188-242 of `ml_backend.py`). -/
def keyPart (o : Option (List KeyEvent)) : List ℚ :=
  match o with
  | some ks => keyBlock ks
  | none => List.replicate 18 0

/-- Touch-block dispatch on presence of the `touchEvents` key
(lines 244-269 of `ml_backend.py`). -/
def touchPart (o : Option (List TouchEvent)) : List ℚ :=
  match o with
  | some ts => touchBlock ts
  | none => List.replicate 4 0

/-- Sensor-block dispatch on presence of the `sensorData` key
(lines 271-316 of `ml_backend.py`). -/
def sensorPart (o : Option (List SensorSample)) : Except String (List ℚ) :=
  match o with
  | some ss => sensorBlock ss
  | none => .ok (List.replicate 36 0)

/-- Body of the `try` block of `extract_features` (lines 184-329): the
concatenation of the key, touch and sensor blocks and the three session
scalars, short-circuited by the first raised `KeyError` (only the
sensor block can raise in this typed embedding). The final
`np.nan_to_num` is the identity on rationals and is not reified. -/
def extractBody (d : BehavioralData) : Except String (List ℚ) :=
  match sensorPart d.sensorData with
  | .error e => .error e
  | .ok sb =>
    .ok (keyPart d.keyEvents ++ touchPart d.touchEvents ++ sb ++
         [d.sessionDuration.getD 0, d.typingSpeed.getD 0, d.falseEnters.getD 0])

/-- Public entry `BehavioralBiometricsML.extract_features`: the body of
the `try` block, with every exception caught and replaced (after a
diagnostic `logger.error` emission, modelled by the discarded error
string) by `np.zeros(73)` (lines 331-334). -/
def extract_features (d : BehavioralData) : List ℚ :=
  match extractBody d with
  | .ok fs => fs
  | .error _ => List.replicate 73 0

/-- Intervals between adjacent pairs of key events that are both
`pressed`, as scanned by `risk_assessment` (lines 234-238 of
`api_server.py`). -/
def typingIntervals (ks : List KeyEvent) : List ℚ :=
  (ks.zip ks.tail).filterMap fun p =>
    if p.2.event = "pressed" ∧ p.1.event = "pressed" then
      some (p.2.epoch - p.1.epoch)
    else none

/-- The `typing_speed_anomaly` indicator of `risk_assessment`
(lines 231-243 of `api_server.py`). -/
def typingSpeedAnomaly (d : BehavioralData) : Bool :=
  match d.keyEvents with
  | none => false
  | some ks =>
    if ks.length > 1 then
      if 2 ≤ ks.length then
        if typingIntervals ks ≠ [] then
          decide (meanQ (typingIntervals ks) > 5000)
        else false
      else false
    else false

/-- Reading `s.get(sensor, \x7b\x7d).get(axis, 0)` of `risk_assessment`:
an absent sensor key defaults every axis to 0. -/
def axisGet (o : Option Vec3) (f : Vec3 → ℚ) : ℚ :=
  match o with
  | some v => f v
  | none => 0

/-- The `sensor_variance_high` indicator of `risk_assessment`
(lines 246-258 of `api_server.py`): true when the largest population
variance over the three accelerometer axis lists exceeds 15. -/
def sensorVarianceHigh (d : BehavioralData) : Bool :=
  match d.sensorData with
  | none => false
  | some ss =>
    if ss.length > 1 then
      let xs := ss.map fun s => axisGet s.accelerometer Vec3.x
      let ys := ss.map fun s => axisGet s.accelerometer Vec3.y
      let zs := ss.map fun s => axisGet s.accelerometer Vec3.z
      if xs ≠ [] ∧ ys ≠ [] ∧ zs ≠ [] then
        decide (max (max (pvar xs) (pvar ys)) (pvar zs) > 15)
      else false
    else false

/-- The `touch_pattern_irregular` indicator of `risk_assessment`
(lines 261-274 of `api_server.py`): the movement scan visits the same
adjacent `touch` → `release` pairs as `touchMovements`. -/
def touchPatternIrregular (d : BehavioralData) : Bool :=
  match d.touchEvents with
  | none => false
  | some ts =>
    if ts.length > 1 then
      if touchMovements ts ≠ [] then
        decide (meanQ (touchMovements ts) > 100)
      else false
    else false

/-- The `session_consistency_low` indicator: present in the dict of
`risk_assessment` but never assigned after initialization (line 227 of
`api_server.py`). -/
def sessionConsistencyLow (_d : BehavioralData) : Bool := false

/-- Numeric value of a Python boolean under `sum`. -/
def b2q (b : Bool) : ℚ := if b then 1 else 0

/-- The heuristic risk score of `risk_assessment` (line 277 of
`api_server.py`): `sum(risk_indicators.values()) / len(risk_indicators)`
over the four indicator flags. -/
def heuristicRiskScore (d : BehavioralData) : ℚ :=
  (b2q (typingSpeedAnomaly d) + b2q (sensorVarianceHigh d) +
   b2q (touchPatternIrregular d) + b2q (sessionConsistencyLow d)) / 4

/-- The heuristic risk level of `risk_assessment` (line 283 of
`api_server.py`). -/
def heuristicRiskLevel (s : ℚ) : String :=
  if s > 1 / 2 then "High" else if s > 1 / 5 then "Medium" else "Low"

/-- Count of indicator flags that are set. -/
def countTrueFlags (d : BehavioralData) : ℕ :=
  (if typingSpeedAnomaly d then 1 else 0) +
  (if sensorVarianceHigh d then 1 else 0) +
  (if touchPatternIrregular d then 1 else 0) +
  (if sessionConsistencyLow d then 1 else 0)

/-- Method `BehavioralBiometricsML._calculate_risk_score`
(lines 492-509 of `ml_backend.py`): additive contributions capped by
`min(risk_score, 1.0)`. -/
def calculate_risk_score (features : List ℚ) (prediction_prob anomaly_score : ℚ) : ℚ :=
  let r0 : ℚ := 0
  let r1 := if prediction_prob < 3 / 10 ∨ prediction_prob > 7 / 10 then r0 + 3 / 10 else r0
  let r2 := if anomaly_score < -(1 / 2) then r1 + 2 / 5 else r1
  let r3 := if pvar features > 10 then r2 + 3 / 10 else r2
  min r3 1

/-- Method `BehavioralBiometricsML._get_risk_level` (lines 511-518 of
`ml_backend.py`). -/
def get_risk_level (risk_score : ℚ) : String :=
  if risk_score < 3 / 10 then "Low"
  else if risk_score < 7 / 10 then "Medium"
  else "High"

/-- Result record of the `validate_data` endpoint (lines 312-317 of
`api_server.py`). -/
structure ValidationResult where
  is_valid : Bool
  errors : List String
  warnings : List String
  data_quality_score : ℚ
deriving DecidableEq

/-- Response of the `validate_data` endpoint: either the early
`No data provided` rejection (HTTP 400) or a computed result. -/
inductive ValidateResponse where
  | noData : ValidateResponse
  | ok : ValidationResult → ValidateResponse
deriving DecidableEq

/-- Truthiness of the payload dict: a dict with no keys is falsy, so
`if not data:` also fires on the empty payload. -/
def isEmptyPayload (d : BehavioralData) : Bool :=
  d.keyEvents.isNone && d.touchEvents.isNone && d.sensorData.isNone &&
  d.sessionDuration.isNone && d.typingSpeed.isNone && d.falseEnters.isNone

/-- Quality factor for key events (lines 353-358 of `api_server.py`). -/
def keyQuality (d : BehavioralData) : ℚ :=
  match d.keyEvents with
  | some ks => if ks.length ≥ 5 then 1 else if ks.length ≥ 2 then 1 / 2 else 0
  | none => 0

/-- Quality factor for sensor data (lines 360-365 of `api_server.py`). -/
def sensorQuality (d : BehavioralData) : ℚ :=
  match d.sensorData with
  | some ss => if ss.length ≥ 10 then 1 else if ss.length ≥ 5 then 1 / 2 else 0
  | none => 0

/-- Quality factor for touch events (lines 367-372 of `api_server.py`). -/
def touchQuality (d : BehavioralData) : ℚ :=
  match d.touchEvents with
  | some ts => if ts.length ≥ 3 then 1 else if ts.length ≥ 1 then 1 / 2 else 0
  | none => 0

/-- Validation logic of `validate_data` after the truthiness guard
(lines 312-374 of `api_server.py`). The three `isinstance(_, list)`
checks cannot fail in this typed embedding, so the error list holds the
missing-field messages in `required_fields` order, and `is_valid` is
exactly the conjunction of the three presence checks. -/
def validateCore (d : BehavioralData) : ValidationResult :=
  { is_valid := d.keyEvents.isSome && d.touchEvents.isSome && d.sensorData.isSome
    errors :=
      (if d.keyEvents.isNone then ["Missing required field: keyEvents"] else []) ++
      (if d.touchEvents.isNone then ["Missing required field: touchEvents"] else []) ++
      (if d.sensorData.isNone then ["Missing required field: sensorData"] else [])
    warnings :=
      (match d.keyEvents with
       | some ks => if ks.length < 2 then ["Very few key events detected"] else []
       | none => []) ++
      (match d.sensorData with
       | some ss => if ss.length < 5 then ["Limited sensor data available"] else []
       | none => [])
    data_quality_score := (keyQuality d + sensorQuality d + touchQuality d) / 3 }

/-- The `validate_data` endpoint (lines 299-380 of `api_server.py`):
`none` models a request whose body parses to no JSON object, and a
falsy (empty) payload dict is rejected exactly like a missing one. -/
def validate_data (data : Option BehavioralData) : ValidateResponse :=
  match data with
  | none => .noData
  | some d => if isEmptyPayload d then .noData else .ok (validateCore d)

/-- Discriminator of `ValidateResponse`. -/
def isOkResponse : ValidateResponse → Bool
  | .ok _ => true
  | .noData => false

end Fingertail

namespace Fingertail

/-- Rat.sqrt vanishes at zero. -/
lemma sqrtQ_zero : Rat.sqrt 0 = 0 := by
  have h := Rat.sqrt_eq (0 : ℚ)
  rw [mul_zero] at h
  rw [h, abs_zero]

/-- String disequality used to reduce event-kind tests. -/
lemma releasedNePressed : ("released" : String) ≠ "pressed" := by decide

/-- String disequality used to reduce event-kind tests. -/
lemma pressedNeReleased : ("pressed" : String) ≠ "released" := by decide

/-- Percentile of a constant pair is that constant, for any percentage
below 100. -/
lemma percentileQ_pair (a p : ℚ) (h0 : 0 ≤ p) (h1 : p < 100) :
    percentileQ [a, a] p = a := by
  have hs : sortQ [a, a] = [a, a] := by simp [sortQ, insertSorted]
  have hf : ⌊p / 100 * ((2 : ℚ) - 1)⌋ = 0 := by
    rw [Int.floor_eq_zero_iff, Set.mem_Ico]
    constructor
    · positivity
    · norm_num
      rw [div_lt_one (by norm_num)]
      exact h1
  simp [percentileQ, hs, hf]

end Fingertail

namespace Fingertail

/-- Zero reading, used as the (never inspected) default of `Option.getD`
on a field known to be present. -/
def zeroVec : Vec3 := ⟨0, 0, 0⟩

/-- Whether the key-timing branch emitting 14 values is active: the
`keyEvents` key present with more than one event. -/
def keyTimingActive (d : BehavioralData) : Bool :=
  match d.keyEvents with
  | some ks => decide (ks.length > 1)
  | none => false

/-- The behavioral payload with no keys at all, the image of `\x7b\x7d`. -/
def emptyPayloadData : BehavioralData := ⟨none, none, none, none, none, none⟩

/-- A sensor sample carrying none of the three sensor keys. -/
def noAccSample : SensorSample := ⟨none, none, none, 0⟩

/-- A payload whose two sensor samples lack the `accelerometer` key, so
feature extraction raises internally. -/
def badSensorData : BehavioralData :=
  ⟨none, none, some [noAccSample, noAccSample], none, none, none⟩

/-- Length of the key block: 14 values when more than one key event,
18 zeros otherwise. -/
lemma keyBlock_length (ks : List KeyEvent) :
    (keyBlock ks).length = if ks.length > 1 then 14 else 18 := by
  unfold keyBlock
  split_ifs <;> simp [dwellStats, fourStats]

/-- Length of the touch block is always 4. -/
lemma touchBlock_length (ts : List TouchEvent) : (touchBlock ts).length = 4 := by
  unfold touchBlock
  split_ifs <;> simp [fourStats]

/-- Length of the key part: 14 when the key-timing branch is active,
18 otherwise. -/
lemma keyPart_length (o : Option (List KeyEvent)) :
    (keyPart o).length =
      if (match o with | some ks => decide (ks.length > 1) | none => false) then 14
      else 18 := by
  cases o with
  | none => simp [keyPart]
  | some ks =>
    simp only [keyPart, keyBlock_length]
    by_cases h : ks.length > 1 <;> simp [h]

/-- Length of the touch part is always 4. -/
lemma touchPart_length (o : Option (List TouchEvent)) : (touchPart o).length = 4 := by
  cases o <;> simp [touchPart, touchBlock_length]

/-- A successful optional sensor sub-block always holds 12 values. -/
lemma optSensor_length (c : Prop) [Decidable c]
    (x : Except String (List Vec3)) (out : List ℚ)
    (h : (if c then x.map stats12 else Except.ok (List.replicate 12 0)) = .ok out) :
    out.length = 12 := by
  split at h
  · cases x with
    | error e => simp [Except.map] at h
    | ok vs =>
      simp only [Except.map] at h
      cases h
      simp [stats12]
  · cases h
    simp

/-- A successful sensor block always holds 36 values. -/
lemma sensorBlock_ok_length (ss : List SensorSample) (fs : List ℚ)
    (h : sensorBlock ss = .ok fs) : fs.length = 36 := by
  match ss with
  | [] =>
    simp only [sensorBlock] at h
    cases h
    simp
  | [s0] =>
    simp only [sensorBlock] at h
    cases h
    simp
  | s0 :: s1 :: rest =>
    simp only [sensorBlock] at h
    split at h
    · exact absurd h (by simp)
    · split at h
      · exact absurd h (by simp)
      · rename_i accs _ heqg
        split at h
        · exact absurd h (by simp)
        · rename_i gyr _ heqm
          cases h
          simp only [List.length_append, stats12, List.length_cons]
          rw [optSensor_length _ _ _ heqg, optSensor_length _ _ _ heqm]
          simp

/-- A successful sensor part always holds 36 values. -/
lemma sensorPart_ok_length (o : Option (List SensorSample)) (sb : List ℚ)
    (h : sensorPart o = .ok sb) : sb.length = 36 := by
  cases o with
  | none =>
    simp only [sensorPart] at h
    cases h
    simp
  | some ss => exact sensorBlock_ok_length ss sb h

/-- C2: extract_features never propagates an internal failure: whenever
the body of the `try` block raises, the function logs the failure (the
error string of the `Except` value) and returns the all-zero vector of
length 73. -/
theorem C2_extract_fallback_on_failure (d : BehavioralData) (e : String)
    (h : extractBody d = .error e) :
    extract_features d = List.replicate 73 0 ∧ (extract_features d).length = 73 := by
  unfold extract_features
  rw [h]
  exact ⟨rfl, by simp⟩

/-- C2 witness: a payload whose sensor samples lack the accelerometer
key makes the body raise `KeyError`, and extraction returns 73 zeros. -/
theorem C2_witness : extract_features badSensorData = List.replicate 73 0 :=
  (C2_extract_fallback_on_failure badSensorData "KeyError: accelerometer"
    (by rfl)).1

/-- C1: the claim that every extraction yields 73 values is contradicted
by the code itself, whose fallback comment fixes the total feature count
at 73: the empty payload runs the normal path and yields 61 values. -/
theorem C1_empty_payload_length :
    (extract_features emptyPayloadData).length = 61 ∧
    (extract_features emptyPayloadData).length ≠ 73 := by
  have h : extract_features emptyPayloadData =
      List.replicate 18 0 ++ List.replicate 4 0 ++ List.replicate 36 0 ++
        [0, 0, 0] := by rfl
  rw [h]
  simp

/-- C9: on the non-failure path the vector length is 57 when the
key-timing branch is active (keyEvents present with at least two
events) and 61 otherwise, and in particular never 73. -/
theorem C9_normal_path_length (d : BehavioralData) (fs : List ℚ)
    (h : extractBody d = .ok fs) :
    extract_features d = fs ∧
    fs.length = (if keyTimingActive d then 57 else 61) ∧
    fs.length ≠ 73 := by
  refine ⟨by unfold extract_features; rw [h], ?_, ?_⟩
  · unfold extractBody at h
    split at h
    · exact absurd h (by simp)
    · rename_i sb heq
      cases h
      simp only [List.length_append, keyPart_length, touchPart_length,
        sensorPart_ok_length _ _ heq, List.length_cons, List.length_nil]
      unfold keyTimingActive
      split_ifs <;> rfl
  · unfold extractBody at h
    split at h
    · exact absurd h (by simp)
    · rename_i sb heq
      cases h
      simp only [List.length_append, keyPart_length, touchPart_length,
        sensorPart_ok_length _ _ heq, List.length_cons, List.length_nil]
      split_ifs <;> omega

/-- C9 witness: the empty payload takes the normal path and yields 61
values, not 73. -/
theorem C9_witness :
    extract_features emptyPayloadData =
      List.replicate 18 0 ++ List.replicate 4 0 ++ List.replicate 36 0 ++
        [0, 0, 0] ∧
    (List.replicate 18 (0 : ℚ) ++ List.replicate 4 0 ++ List.replicate 36 0 ++
        [0, 0, 0]).length = 61 := by
  have h := C9_normal_path_length emptyPayloadData
    (List.replicate 18 0 ++ List.replicate 4 0 ++ List.replicate 36 0 ++
      [0, 0, 0]) (by rfl)
  exact ⟨h.1, by simp⟩

/-- Key events of the concrete scenario (the module's own
`sample_data`): press and release of `a`, then of `b`. -/
def c3KeyEvents : List KeyEvent :=
  [⟨"a", "pressed", 1000, "name"⟩, ⟨"a", "released", 1200, "name"⟩,
   ⟨"b", "pressed", 1500, "name"⟩, ⟨"b", "released", 1700, "name"⟩]

/-- C3: dwell times come from the adjacent pressed-then-released scan
and flight times from the released-then-pressed scan; on the concrete
scenario the dwell statistics are mean/std/min/max/p25/p75 =
200/0/200/200/200/200 and the flight statistics 300/0/300/300; the
dwell group is all-zero with fewer than two key events or when no
qualifying pair exists. -/
theorem C3_dwell_flight_stats :
    dwellTimes c3KeyEvents = [200, 200] ∧
    (keyBlock c3KeyEvents).take 6 = [200, 0, 200, 200, 200, 200] ∧
    flightTimes c3KeyEvents = [300] ∧
    ((keyBlock c3KeyEvents).drop 6).take 4 = [300, 0, 300, 300] ∧
    (∀ (a b : KeyEvent) (rest : List KeyEvent),
      dwellTimes (a :: b :: rest) =
        (if a.event = "pressed" ∧ b.event = "released"
         then [b.epoch - a.epoch] else []) ++ dwellTimes (b :: rest)) ∧
    (∀ ks : List KeyEvent, ¬ ks.length > 1 → keyBlock ks = List.replicate 18 0) ∧
    (∀ ks : List KeyEvent, dwellTimes ks = [] →
      (keyBlock ks).take 6 = List.replicate 6 0) := by
  have hd : dwellTimes c3KeyEvents = [200, 200] := by
    norm_num [c3KeyEvents, dwellTimes, List.filterMap_cons, releasedNePressed]
  have hf : flightTimes c3KeyEvents = [300] := by
    norm_num [c3KeyEvents, flightTimes, List.filterMap_cons, pressedNeReleased]
  have hp : pressTimes c3KeyEvents = [1000, 1500] := by
    norm_num [c3KeyEvents, pressTimes, List.filterMap_cons, releasedNePressed]
  have hlen : c3KeyEvents.length = 4 := by norm_num [c3KeyEvents]
  have hds : dwellStats [200, 200] = [200, 0, 200, 200, 200, 200] := by
    rw [dwellStats, percentileQ_pair 200 25 (by norm_num) (by norm_num),
      percentileQ_pair 200 75 (by norm_num) (by norm_num)]
    norm_num [meanQ, pstd, pvar, minQ, maxQ, sqrtQ_zero]
  have hfs : fourStats [300] = [300, 0, 300, 300] := by
    norm_num [fourStats, meanQ, pstd, pvar, minQ, maxQ, sqrtQ_zero]
  have hk : keyBlock c3KeyEvents =
      [200, 0, 200, 200, 200, 200] ++ [300, 0, 300, 300] ++
        fourStats (diffs [1000, 1500]) := by
    rw [keyBlock, if_pos (by rw [hlen]; norm_num), hd, hf, hp]
    rw [if_pos (by simp), if_pos (by simp), if_pos (by simp)]
    rw [hds, hfs]
  refine ⟨hd, ?_, hf, ?_, ?_, ?_, ?_⟩
  · rw [hk]; rfl
  · rw [hk]; rfl
  · intro a b rest
    by_cases h : a.event = "pressed" ∧ b.event = "released" <;>
      simp [dwellTimes, List.filterMap_cons, h]
  · intro ks h
    rw [keyBlock, if_neg h]
  · intro ks h
    by_cases hl : ks.length > 1
    · rw [keyBlock, if_pos hl, h]
      simp
    · rw [keyBlock, if_neg hl]
      simp [List.take_replicate]

/-- C3 witness: the dwell group degenerates to zeros on an empty
key-event list. -/
theorem C3_witness : keyBlock ([] : List KeyEvent) = List.replicate 18 0 :=
  C3_dwell_flight_stats.2.2.2.2.2.1 [] (by norm_num)

/-- C4: the typing-speed-anomaly flag of the heuristic risk assessment
is set exactly when the key events are present, at least two of them
exist, some adjacent pair of pressed events exists, and the mean of the
adjacent pressed-to-pressed intervals exceeds 5000. -/
theorem C4_typing_speed_anomaly_iff (d : BehavioralData) :
    typingSpeedAnomaly d = true ↔
      ∃ ks, d.keyEvents = some ks ∧ 2 ≤ ks.length ∧
        typingIntervals ks ≠ [] ∧ meanQ (typingIntervals ks) > 5000 := by
  cases hk : d.keyEvents with
  | none => simp [typingSpeedAnomaly, hk]
  | some ks =>
    simp only [typingSpeedAnomaly, hk]
    constructor
    · intro h
      split_ifs at h with h1 h2 h3
      · exact ⟨ks, rfl, h2, h3, of_decide_eq_true h⟩
    · rintro ⟨ks2, hks2, hl2, hne, hmean⟩
      injection hks2 with he
      subst he
      rw [if_pos (by omega), if_pos hl2, if_pos hne]
      exact decide_eq_true hmean

/-- String disequality of risk-level labels. -/
lemma highNeMedium : ("High" : String) ≠ "Medium" := by decide

/-- String disequality of risk-level labels. -/
lemma highNeLow : ("High" : String) ≠ "Low" := by decide

/-- String disequality of risk-level labels. -/
lemma mediumNeHigh : ("Medium" : String) ≠ "High" := by decide

/-- String disequality of risk-level labels. -/
lemma mediumNeLow : ("Medium" : String) ≠ "Low" := by decide

/-- String disequality of risk-level labels. -/
lemma lowNeHigh : ("Low" : String) ≠ "High" := by decide

/-- String disequality of risk-level labels. -/
lemma lowNeMedium : ("Low" : String) ≠ "Medium" := by decide

/-- C6: the heuristic risk score is the count of set flags over four,
hence lands in the five-point grid, and the level thresholds are
strictly greater than one half for High and one fifth for Medium. -/
theorem C6_heuristic_score (d : BehavioralData) :
    heuristicRiskScore d = (countTrueFlags d : ℚ) / 4 ∧
    (heuristicRiskScore d = 0 ∨ heuristicRiskScore d = 1 / 4 ∨
     heuristicRiskScore d = 1 / 2 ∨ heuristicRiskScore d = 3 / 4 ∨
     heuristicRiskScore d = 1) ∧
    (∀ s : ℚ,
      (heuristicRiskLevel s = "High" ↔ s > 1 / 2) ∧
      (heuristicRiskLevel s = "Medium" ↔ 1 / 5 < s ∧ s ≤ 1 / 2) ∧
      (heuristicRiskLevel s = "Low" ↔ s ≤ 1 / 5)) := by
  refine ⟨?_, ?_, ?_⟩
  · unfold heuristicRiskScore countTrueFlags b2q sessionConsistencyLow
    cases typingSpeedAnomaly d <;> cases sensorVarianceHigh d <;>
      cases touchPatternIrregular d <;> norm_num
  · unfold heuristicRiskScore b2q sessionConsistencyLow
    cases typingSpeedAnomaly d <;> cases sensorVarianceHigh d <;>
      cases touchPatternIrregular d <;> norm_num
  · intro s
    unfold heuristicRiskLevel
    split_ifs with h1 h2
    · refine ⟨⟨fun _ => h1, fun _ => rfl⟩, ?_, ?_⟩
      · simp only [highNeMedium, iff_false, false_iff]
        rintro ⟨-, hc⟩
        linarith
      · simp only [highNeLow, false_iff]
        intro hc
        linarith
    · push_neg at h1
      refine ⟨?_, ?_, ?_⟩
      · simp only [mediumNeHigh, false_iff]
        intro hc
        linarith
      · exact ⟨fun _ => ⟨h2, h1⟩, fun _ => rfl⟩
      · simp only [mediumNeLow, false_iff]
        intro hc
        linarith
    · push_neg at h1 h2
      refine ⟨?_, ?_, ?_⟩
      · simp only [lowNeHigh, false_iff]
        intro hc
        linarith
      · simp only [lowNeMedium, false_iff]
        rintro ⟨hc, -⟩
        linarith
      · exact ⟨fun _ => h2, fun _ => rfl⟩

/-- C7: the aggregated risk score is the capped sum of the three fixed
contributions, is bounded by the unit interval, and the level map uses
the 0.3 and 0.7 thresholds. -/
theorem C7_risk_aggregation (fs : List ℚ) (pp aq : ℚ) :
    calculate_risk_score fs pp aq =
      min ((if pp < 3 / 10 ∨ pp > 7 / 10 then (3 : ℚ) / 10 else 0) +
           (if aq < -(1 / 2) then (2 : ℚ) / 5 else 0) +
           (if pvar fs > 10 then (3 : ℚ) / 10 else 0)) 1 ∧
    0 ≤ calculate_risk_score fs pp aq ∧
    calculate_risk_score fs pp aq ≤ 1 ∧
    (∀ s : ℚ,
      (get_risk_level s = "Low" ↔ s < 3 / 10) ∧
      (get_risk_level s = "Medium" ↔ 3 / 10 ≤ s ∧ s < 7 / 10) ∧
      (get_risk_level s = "High" ↔ 7 / 10 ≤ s)) := by
  refine ⟨?_, ?_, ?_, ?_⟩
  · simp only [calculate_risk_score]
    split_ifs <;> norm_num
  · simp only [calculate_risk_score]
    split_ifs <;> norm_num
  · exact min_le_right _ 1
  · intro s
    unfold get_risk_level
    split_ifs with h1 h2
    · refine ⟨⟨fun _ => h1, fun _ => rfl⟩, ?_, ?_⟩
      · simp only [lowNeMedium, false_iff]
        rintro ⟨hc, -⟩
        linarith
      · simp only [lowNeHigh, false_iff]
        intro hc
        linarith
    · push_neg at h1
      refine ⟨?_, ?_, ?_⟩
      · simp only [mediumNeLow, false_iff]
        intro hc
        linarith
      · exact ⟨fun _ => ⟨h1, h2⟩, fun _ => rfl⟩
      · simp only [mediumNeHigh, false_iff]
        intro hc
        linarith
    · push_neg at h1 h2
      refine ⟨?_, ?_, ?_⟩
      · simp only [highNeLow, false_iff]
        intro hc
        linarith
      · simp only [highNeMedium, false_iff]
        rintro ⟨-, hc⟩
        linarith
      · exact ⟨fun _ => h2, fun _ => rfl⟩

/-- C5 counterexample: the literally empty payload is falsy in Python,
so the endpoint rejects it with the early `No data provided` branch and
never builds a ValidationResult at all. -/
theorem C5_counterexample :
    isOkResponse (validate_data (some emptyPayloadData)) = false := rfl

/-- C5 amended: a non-empty payload that lacks all three required
fields yields is_valid false with exactly the three missing-field
errors, collected in order, no warnings, and quality score zero. -/
theorem C5_missing_fields_errors (d : BehavioralData)
    (h0 : isEmptyPayload d = false)
    (h1 : d.keyEvents = none) (h2 : d.touchEvents = none)
    (h3 : d.sensorData = none) :
    validate_data (some d) = ValidateResponse.ok
      { is_valid := false
        errors := ["Missing required field: keyEvents",
                   "Missing required field: touchEvents",
                   "Missing required field: sensorData"]
        warnings := []
        data_quality_score := 0 } := by
  norm_num [validate_data, h0, validateCore, h1, h2, h3, keyQuality,
    sensorQuality, touchQuality]

/-- A payload carrying only a sessionDuration key: truthy, but missing
all three required fields. -/
def onlySessionData : BehavioralData := ⟨none, none, none, some 0, none, none⟩

/-- C5 witness: the amended statement evaluated on the payload with
only a sessionDuration key. -/
theorem C5_witness :
    validate_data (some onlySessionData) = ValidateResponse.ok
      { is_valid := false
        errors := ["Missing required field: keyEvents",
                   "Missing required field: touchEvents",
                   "Missing required field: sensorData"]
        warnings := []
        data_quality_score := 0 } :=
  C5_missing_fields_errors onlySessionData rfl rfl rfl rfl

/-- A sensor-field comprehension succeeds and collects the values when
every sample carries the key. -/
lemma getAll_ok (nm : String) (f : SensorSample → Option Vec3)
    (ss : List SensorSample) (h : ∀ s ∈ ss, (f s).isSome = true) :
    getAll nm f ss = .ok (ss.map fun s => (f s).getD zeroVec) := by
  induction ss with
  | nil => rfl
  | cons s t ih =>
    obtain ⟨v, hv⟩ := Option.isSome_iff_exists.mp (h s (List.mem_cons_self s t))
    simp [getAll, req, hv, ih fun x hx => h x (List.mem_cons_of_mem s hx)]

/-- A sensor-field comprehension raises `KeyError` when some sample
lacks the key. -/
lemma getAll_error (nm : String) (f : SensorSample → Option Vec3)
    (ss : List SensorSample) (h : ∃ s ∈ ss, f s = none) :
    getAll nm f ss = .error ("KeyError: " ++ nm) := by
  induction ss with
  | nil => simp at h
  | cons s t ih =>
    cases hfs : f s with
    | none => simp [getAll, req, hfs]
    | some v =>
      have ht : ∃ x ∈ t, f x = none := by
        rcases h with ⟨x, hx, hnone⟩
        rcases List.mem_cons.mp hx with h1 | h1
        · rw [h1, hfs] at hnone
          cases hnone
        · exact ⟨x, h1, hnone⟩
      simp [getAll, req, hfs, ih ht]

/-- The sensor block raises whenever the first of at least two samples
announces a gyroscope or magnetometer that a later sample lacks. -/
lemma sensorBlock_error_of_heterogeneous (s0 s1 : SensorSample)
    (rest : List SensorSample)
    (hbad :
      (s0.gyroscope.isSome = true ∧ ∃ s ∈ s0 :: s1 :: rest, s.gyroscope = none) ∨
      (s0.magnetometer.isSome = true ∧
        ∃ s ∈ s0 :: s1 :: rest, s.magnetometer = none)) :
    ∃ e, sensorBlock (s0 :: s1 :: rest) = .error e := by
  simp only [sensorBlock]
  cases hacc : getAll "accelerometer" SensorSample.accelerometer (s0 :: s1 :: rest) with
  | error e => exact ⟨e, by simp⟩
  | ok accs =>
    rcases hbad with ⟨hg, hex⟩ | ⟨hm, hex⟩
    · exact ⟨"KeyError: gyroscope", by
        simp [hg, getAll_error "gyroscope" SensorSample.gyroscope _ hex, Except.map]⟩
    · by_cases hg : s0.gyroscope.isSome = true
      · cases hgy : getAll "gyroscope" SensorSample.gyroscope (s0 :: s1 :: rest) with
        | error e => exact ⟨e, by simp [hg, hgy, Except.map]⟩
        | ok gs =>
          exact ⟨"KeyError: magnetometer", by simp [hg, hgy, hm, Except.map,
            getAll_error "magnetometer" SensorSample.magnetometer _ hex]⟩
      · simp only [Bool.not_eq_true] at hg
        exact ⟨"KeyError: magnetometer", by simp [hg, hm, Except.map,
          getAll_error "magnetometer" SensorSample.magnetometer _ hex]⟩

/-- C10: when the sensor list has at least two samples, the first
sample announces a gyroscope (or magnetometer) and some sample lacks
it, extraction aborts through the exception handler and yields the
73-zero fallback rather than a partial vector. -/
theorem C10_heterogeneous_sensor_fallback (d : BehavioralData)
    (s0 s1 : SensorSample) (rest : List SensorSample)
    (hs : d.sensorData = some (s0 :: s1 :: rest))
    (hbad :
      (s0.gyroscope.isSome = true ∧ ∃ s ∈ s0 :: s1 :: rest, s.gyroscope = none) ∨
      (s0.magnetometer.isSome = true ∧
        ∃ s ∈ s0 :: s1 :: rest, s.magnetometer = none)) :
    extract_features d = List.replicate 73 0 := by
  obtain ⟨e, he⟩ := sensorBlock_error_of_heterogeneous s0 s1 rest hbad
  have hb : extractBody d = .error e := by
    unfold extractBody sensorPart
    rw [hs]
    simp [he]
  unfold extract_features
  rw [hb]

/-- A sensor sample with accelerometer and gyroscope keys but no
magnetometer key. -/
def gyroFirst : SensorSample := ⟨some ⟨0, 0, 0⟩, some ⟨0, 0, 0⟩, none, 0⟩

/-- A sensor sample with only the accelerometer key. -/
def gyroNone : SensorSample := ⟨some ⟨0, 0, 0⟩, none, none, 0⟩

/-- A payload whose first sensor sample has a gyroscope and whose
second has none. -/
def heteroSensorData : BehavioralData :=
  ⟨none, none, some [gyroFirst, gyroNone], none, none, none⟩

/-- C10 witness: a two-sample sensor stream that loses its gyroscope
mid-stream collapses to the 73-zero fallback. -/
theorem C10_witness : extract_features heteroSensorData = List.replicate 73 0 :=
  C10_heterogeneous_sensor_fallback heteroSensorData gyroFirst gyroNone []
    rfl (Or.inl ⟨rfl, gyroNone, by simp, rfl⟩)

/-- C8: with at least two sensor samples whose announced fields are
present throughout, the block is the 12 accelerometer statistics,
then the gyroscope statistics exactly when the first sample has a
gyroscope key (12 zeros otherwise), then the magnetometer statistics
under the same first-sample rule; with fewer than two samples the
whole 36-value block is zeros. -/
theorem C8_sensor_structure (s0 s1 : SensorSample) (rest : List SensorSample)
    (hacc : ∀ s ∈ s0 :: s1 :: rest, (s.accelerometer).isSome = true)
    (hgyr : s0.gyroscope.isSome = true →
      ∀ s ∈ s0 :: s1 :: rest, (s.gyroscope).isSome = true)
    (hmag : s0.magnetometer.isSome = true →
      ∀ s ∈ s0 :: s1 :: rest, (s.magnetometer).isSome = true) :
    (sensorBlock (s0 :: s1 :: rest) = .ok
      (stats12 ((s0 :: s1 :: rest).map fun s => s.accelerometer.getD zeroVec) ++
       (if s0.gyroscope.isSome then
          stats12 ((s0 :: s1 :: rest).map fun s => s.gyroscope.getD zeroVec)
        else List.replicate 12 0) ++
       (if s0.magnetometer.isSome then
          stats12 ((s0 :: s1 :: rest).map fun s => s.magnetometer.getD zeroVec)
        else List.replicate 12 0))) ∧
    (∀ ss : List SensorSample, ss.length < 2 →
      sensorBlock ss = .ok (List.replicate 36 0)) := by
  constructor
  · by_cases hg : s0.gyroscope.isSome = true <;>
      by_cases hm : s0.magnetometer.isSome = true
    · simp [sensorBlock, getAll_ok _ _ _ hacc, hg, hm, Except.map,
        getAll_ok _ _ _ (hgyr hg), getAll_ok _ _ _ (hmag hm)]
    · simp only [Bool.not_eq_true] at hm
      simp [sensorBlock, getAll_ok _ _ _ hacc, hg, hm, Except.map,
        getAll_ok _ _ _ (hgyr hg)]
    · simp only [Bool.not_eq_true] at hg
      simp [sensorBlock, getAll_ok _ _ _ hacc, hg, hm, Except.map,
        getAll_ok _ _ _ (hmag hm)]
    · simp only [Bool.not_eq_true] at hg hm
      simp [sensorBlock, getAll_ok _ _ _ hacc, hg, hm, Except.map]
  · intro ss hlen
    match ss with
    | [] => rfl
    | [s] => rfl
    | a :: b :: t =>
      exfalso
      simp [List.length_cons] at hlen
      omega

/-- C8 witness: two identical samples with accelerometer and gyroscope
but no magnetometer produce computed accelerometer and gyroscope
statistics and a zero magnetometer block. -/
theorem C8_witness :
    sensorBlock [gyroFirst, gyroFirst] = .ok
      (stats12 [zeroVec, zeroVec] ++ stats12 [zeroVec, zeroVec] ++
        List.replicate 12 0) := by
  have h := (C8_sensor_structure gyroFirst gyroFirst []
    (by simp [gyroFirst]) (fun _ => by simp [gyroFirst])
    (fun hmm => by simp [gyroFirst] at hmm)).1
  simpa [gyroFirst, zeroVec] using h

end Fingertail
